import Mathlib

/-!
Shallow embedding of `libs/ultrahdr/fuzzer/ultrahdr_enc_fuzzer.cpp`
(the JpegHDRFuzzer driver of the gain-map HDR codec).

Pure computations of the driver (gain-map dimension rounding, the even
clip of width/height, metadata construction, the fill loops, the encode
dispatch) are translated into executable Lean definitions; the external
JPEG compressor and the fuzzed-data provider are modelled by their
declared contracts (free parameters for the sizes and draws they return).
Buffers are modelled by the byte offsets the code writes, so that
initialization claims can be evaluated on concrete inputs.
-/

/-! ## Constants from the driver (ultrahdr_enc_fuzzer.cpp, lines 31-58) -/

def kMinWidth : Nat := 8
def kMaxWidth : Nat := 7680

def kMinHeight : Nat := 8
def kMaxHeight : Nat := 4320

def kScaleFactor : Nat := 4

def kJpegBlock : Nat := 16

def kQfMin : Nat := 0
def kQfMax : Nat := 100

/-! ## Enumerations and nits constants

The driver includes `ultrahdr/gainmapmath.h`, which is not part of the
visible sources; only its use sites are. -/

/-- Modelled from the spec: the transfer-function enumeration
`{unspecified, linear, HLG, PQ, sRGB}` of `ultrahdr.h` (a header this
repository provides but that is missing from the visible sources), with
`unspecified = -1` as the sentinel the driver excludes via
`kTfMin = ULTRAHDR_TF_UNSPECIFIED + 1` and a final `MAX` member used as
`kTfMax`. -/
def ULTRAHDR_TF_UNSPECIFIED : Int := -1

def ULTRAHDR_TF_LINEAR : Int := 0

def ULTRAHDR_TF_HLG : Int := 1

def ULTRAHDR_TF_PQ : Int := 2

def ULTRAHDR_TF_SRGB : Int := 3

def ULTRAHDR_TF_MAX : Int := 4

/-- Driver constant: `kTfMin = ULTRAHDR_TF_UNSPECIFIED + 1` (line 46). -/
def kTfMin : Int := ULTRAHDR_TF_UNSPECIFIED + 1

/-- Driver constant: `kTfMax = ULTRAHDR_TF_MAX` (line 47). -/
def kTfMax : Int := ULTRAHDR_TF_MAX

/-- Modelled from the spec: the color-gamut enumeration
`{unspecified, BT.709, P3, BT.2100}` of `ultrahdr.h` (missing from the
visible sources), with `unspecified = -1` as the sentinel. -/
def ULTRAHDR_COLORGAMUT_UNSPECIFIED : Int := -1

def ULTRAHDR_COLORGAMUT_BT709 : Int := 0

def ULTRAHDR_COLORGAMUT_P3 : Int := 1

def ULTRAHDR_COLORGAMUT_BT2100 : Int := 2

/-- Modelled from the spec: the HLG transfer function's known peak-nits
constant (`kHlgMaxNits` of `gainmapmath.h`, missing from the visible
sources): 1000 nits. -/
def kHlgMaxNits : ℚ := 1000

/-- Modelled from the spec: the PQ transfer function's known peak-nits
constant (`kPqMaxNits` of `gainmapmath.h`, missing from the visible
sources): 10000 nits. -/
def kPqMaxNits : ℚ := 10000

/-- Modelled from the spec: the fixed SDR white-level constant
(`kSdrWhiteNits` of `gainmapmath.h`, missing from the visible sources):
100 nits. -/
def kSdrWhiteNits : ℚ := 100

/-! ## Data model -/

/-- `jpegr_compressed_struct`: current length, capacity (`maxLength`) and
gamut tag of a compressed image buffer. The byte pointer is not modelled;
the claims about these buffers concern the length fields only. -/
structure JpegrCompressedStruct where
  length : Nat
  maxLength : Nat
  colorGamut : Int
deriving DecidableEq

/-- `jpegr_uncompressed_struct`: dimensions, gamut and per-plane strides of
an uncompressed image descriptor (the pixel pointers are not modelled). -/
structure JpegrUncompressedStruct where
  width : Nat
  height : Nat
  colorGamut : Int
  lumaStride : Nat
  chromaStride : Nat
deriving DecidableEq

/-- `ultrahdr_metadata_struct` as the driver fills it: a version string and
the two content-boost fields (floats, modelled as rationals; the values the
driver produces are exactly representable). -/
structure UltrahdrMetadataStruct where
  version : String
  maxContentBoost : ℚ
  minContentBoost : ℚ
deriving DecidableEq

/-! ## Dimension computations of the driver -/

/-- The even clip `(v >> 1) << 1` the driver applies to the drawn width and
height (lines 127-131). -/
def makeEven (v : Nat) : Nat := (v >>> 1) <<< 1

theorem makeEven_eq (v : Nat) : makeEven v = v / 2 * 2 := by
  simp [makeEven, Nat.shiftRight_eq_div_pow, Nat.shiftLeft_eq, pow_one]

/-- Gain-map width for the pure-mux shape (lines 168-171):
`map_width = width / kScaleFactor` then
`map_width = floor((map_width + kJpegBlock - 1) / kJpegBlock) * kJpegBlock`
(integer division; the `floor` on the already-integral quotient is the
identity). -/
def mapWidth (width : Nat) : Nat :=
  (width / kScaleFactor + kJpegBlock - 1) / kJpegBlock * kJpegBlock

/-- Gain-map height for the pure-mux shape (lines 169-172):
`map_height = height / kScaleFactor` then
`map_height = ((map_height + 1) >> 1) << 1`. -/
def mapHeight (height : Nat) : Nat :=
  ((height / kScaleFactor + 1) >>> 1) <<< 1

/-- The p010 descriptor fields the driver assigns (lines 137-146):
`width`/`height` are the even-clipped draws, `luma_stride` is `yStride`
when `hasYStride` else 0, `chroma_stride` is 0 in the UV-contiguous branch
else `uvStride`. -/
def mkP010Img (w h : Nat) (cg : Int) (isUVContiguous hasYStride : Bool)
    (yStride uvStride : Nat) : JpegrUncompressedStruct :=
  { width := w, height := h, colorGamut := cg,
    lumaStride := if hasYStride then yStride else 0,
    chromaStride := if isUVContiguous then 0 else uvStride }

/-- The 420 descriptor fields the driver assigns (lines 189-199). -/
def mkYuv420Img (w h : Nat) (cg : Int) : JpegrUncompressedStruct :=
  { width := w, height := h, colorGamut := cg,
    lumaStride := 0, chromaStride := 0 }

/-! ## Compressed buffers of the pure-mux / pre-compressed shapes -/

/-- The pre-compressed SDR image the driver builds (lines 225-228):
`jpegImg.length = encoder.getCompressedImageSize()` and
`jpegImg.maxLength = jpegImg.length`. The external encoder's compressed
size is a free parameter. -/
def mkJpegImg (compressedSize : Nat) (yuv420Cg : Int) : JpegrCompressedStruct :=
  { length := compressedSize, maxLength := compressedSize, colorGamut := yuv420Cg }

/-- The pre-compressed gain-map image the driver builds (lines 239-242):
`jpegGainMap.length = gainMapEncoder.getCompressedImageSize()` and
`jpegGainMap.maxLength = jpegImg.length` — the capacity field is assigned
the SDR image's length, exactly as in the source. -/
def mkJpegGainMap (gainMapCompressedSize : Nat) (jpegImg : JpegrCompressedStruct) :
    JpegrCompressedStruct :=
  { length := gainMapCompressedSize, maxLength := jpegImg.length,
    colorGamut := ULTRAHDR_COLORGAMUT_UNSPECIFIED }

/-! ## Metadata construction (lines 252-261) -/

/-- The metadata record the driver constructs for the pure-mux shape:
`maxContentBoost` is `kHlgMaxNits / kSdrWhiteNits` for HLG,
`kPqMaxNits / kSdrWhiteNits` for PQ, and 0 otherwise;
`minContentBoost = 1.0`. -/
def mkMetadata (tf : Int) : UltrahdrMetadataStruct :=
  { version := "1.3.1",
    maxContentBoost :=
      if tf = ULTRAHDR_TF_HLG then kHlgMaxNits / kSdrWhiteNits
      else if tf = ULTRAHDR_TF_PQ then kPqMaxNits / kSdrWhiteNits
      else 0,
    minContentBoost := 1 }

/-! ## fillP010Buffer (lines 72-85)

The buffer is modelled as the set of BYTE offsets written, measured from
`data`: `memcpy(data + i, buffer.data(), min(16, width - i))` writes
`min 16 (width - i)` bytes starting at byte offset `2*i` (`data` is a
`uint16_t*`, so `data + i` is byte offset `2*i`). The copied values are
fuzz-generated and not modelled; the claims concern which offsets are
written. The local `tmp` is advanced by `stride` per row exactly as in the
source (and, as in the source, is never used as a write target). -/

/-- Mark bytes `base, base+1, ..., base+n-1` written. -/
def writeBytes (written : Nat → Bool) (base n : Nat) : Nat → Bool :=
  fun b => if base ≤ b ∧ b < base + n then true else written b

/-- Inner loop of `fillP010Buffer`: `for (i = 0; i < width; i += 16)`
copying `min 16 (width - i)` bytes to `data + i` (byte offset `2*i`).
The first argument is fuel bounding the iteration count; `width` fuel
always suffices since `i` grows by 16 per step. -/
def fillP010RowAux (width : Nat) : Nat → Nat → (Nat → Bool) → (Nat → Bool)
  | 0, _, written => written
  | fuel + 1, i, written =>
    if i < width then
      fillP010RowAux width fuel (i + 16) (writeBytes written (2 * i) (min 16 (width - i)))
    else written

def fillP010Row (width : Nat) (written : Nat → Bool) : Nat → Bool :=
  fillP010RowAux width width 0 written

/-- Outer loop of `fillP010Buffer`: state is `(tmp, written)`; each row
runs the inner loop (whose write target is `data`, not `tmp`) and then
advances `tmp` by `stride`. -/
def fillP010Outer (width stride : Nat) : Nat → Nat × (Nat → Bool) → Nat × (Nat → Bool)
  | 0, st => st
  | j + 1, st => fillP010Outer width stride j (st.1 + stride, fillP010Row width st.2)

/-- `fillP010Buffer(data, width, height, stride)`: the resulting
written-byte set starting from `written`. -/
def fillP010Buffer (width height stride : Nat) (written : Nat → Bool) : Nat → Bool :=
  (fillP010Outer width stride height (0, written)).2

/-- A 16-bit element at element index `idx` has been (fully) written when
both of its bytes have. -/
def elementWritten (written : Nat → Bool) (idx : Nat) : Bool :=
  written (2 * idx) && written (2 * idx + 1)

/-! ## fill420Buffer (lines 87-94)

Modelled as the list of `(offset, byteCount)` memcpy operations performed:
`for (i = 0; i < size; i += 16)` copies `min 16 (size - i)` bytes to
`data + i` (`data` is `uint8_t*`, so offsets are byte offsets). -/

def fill420Aux (size : Nat) : Nat → Nat → List (Nat × Nat)
  | 0, _ => []
  | fuel + 1, i =>
    if i < size then (i, min 16 (size - i)) :: fill420Aux size fuel (i + 16)
    else []

/-- The copies performed by `fill420Buffer(data, size)`; `size` fuel always
suffices since `i` grows by 16 per iteration. -/
def fill420Writes (size : Nat) : List (Nat × Nat) :=
  fill420Aux size size 0

/-! ## Encode dispatch (lines 106, 221-263)

One driver iteration's destination-buffer writes and encode invocations,
as a trace of events. `sdrCompressOk` models the outcome of
`encoder.compressImage` (line 223), `gainMapCompressOk` the outcome of
`gainMapEncoder.compressImage` (line 236); both are external collaborators
whose success is a free boolean. -/

inductive EncodeCall where
  | api0
  | api1
  | api2
  | api3
  | api4
deriving DecidableEq

inductive DriverEvent where
  | setDestLength : Nat → DriverEvent
  | encode : EncodeCall → DriverEvent
deriving DecidableEq

/-- The event trace of one iteration's dispatch, mirroring the
`if/else if` chain on `muxSwitch` (lines 221-263): shapes 0 and 1 reset the
destination length and encode; shapes 2-4 first require the SDR compression
to succeed; shape 4 resets the length, then encodes only if the gain-map
compression also succeeds. -/
def iterationTrace (muxSwitch : Nat) (sdrCompressOk gainMapCompressOk : Bool) :
    List DriverEvent :=
  if muxSwitch = 0 then
    [DriverEvent.setDestLength 0, DriverEvent.encode EncodeCall.api0]
  else if muxSwitch = 1 then
    [DriverEvent.setDestLength 0, DriverEvent.encode EncodeCall.api1]
  else if sdrCompressOk then
    if muxSwitch = 2 then
      [DriverEvent.setDestLength 0, DriverEvent.encode EncodeCall.api2]
    else if muxSwitch = 3 then
      [DriverEvent.setDestLength 0, DriverEvent.encode EncodeCall.api3]
    else if muxSwitch = 4 then
      if gainMapCompressOk then
        [DriverEvent.setDestLength 0, DriverEvent.encode EncodeCall.api4]
      else
        [DriverEvent.setDestLength 0]
    else []
  else []

/-- The encode calls appearing in a trace, in order. -/
def encodeCallsOf : List DriverEvent → List EncodeCall
  | [] => []
  | DriverEvent.encode c :: rest => c :: encodeCallsOf rest
  | DriverEvent.setDestLength _ :: rest => encodeCallsOf rest

/-- The encode shape `muxSwitch` selects (comment labels `api 0` .. `api 4`
in the source). -/
def apiOf (muxSwitch : Nat) : EncodeCall :=
  if muxSwitch = 0 then EncodeCall.api0
  else if muxSwitch = 1 then EncodeCall.api1
  else if muxSwitch = 2 then EncodeCall.api2
  else if muxSwitch = 3 then EncodeCall.api3
  else EncodeCall.api4

/-- Each encode call of a trace paired with the destination buffer's
`length` field at the moment of the call, folding `setDestLength` events
over an arbitrary initial length. -/
def encodeStates : List DriverEvent → Nat → List (EncodeCall × Nat)
  | [], _ => []
  | DriverEvent.setDestLength n :: rest, _ => encodeStates rest n
  | DriverEvent.encode c :: rest, cur => (c, cur) :: encodeStates rest cur

/-! ## FuzzedDataProvider draws -/

/-- Modelled from the spec: `FLT_MAX`, the largest finite single-precision
float, `(2^24 - 1) * 2^104`, the "large sentinel maximum" of the decode
boost range. -/
def kFltMax : ℚ := 340282346638528859811704183484516925440

/-- Modelled from the spec: `FuzzedDataProvider::ConsumeFloatingPointInRange
(min, max)` (a header outside this repository) returns `min + (max - min) * p`
for a consumed probability `p` in `[0, 1]`, hence a value within `[min, max]`. -/
def consumeFloatingPointInRange (lo hi p : ℚ) : ℚ :=
  lo + (hi - lo) * p

/-- The boost the driver passes to `decodeJPEGR` (line 272):
`ConsumeFloatingPointInRange<float>(1.0, FLT_MAX)`. -/
def decodeBoost (p : ℚ) : ℚ :=
  consumeFloatingPointInRange 1 kFltMax p

/-! ## Claims -/

/-- C1: evaluation of the gain-map buffer construction at a failing input.
When the pure-mux shape's external SDR encoder returns 100 bytes and the
gain-map encoder returns 200 bytes, the pre-compressed SDR buffer does
satisfy `length ≤ maxLength`, but the pre-compressed gain-map buffer passed
to the api-4 `encodeJPEGR` has `maxLength = 100 < 200 = length`: the source
assigns `jpegGainMap.maxLength = jpegImg.length` instead of the gain map's
own length, violating the spec invariant that length never exceeds
capacity. -/
theorem c1_gainmap_buffer_length_exceeds_capacity :
    (mkJpegImg 100 ULTRAHDR_COLORGAMUT_BT709).length ≤
      (mkJpegImg 100 ULTRAHDR_COLORGAMUT_BT709).maxLength ∧
    (mkJpegGainMap 200 (mkJpegImg 100 ULTRAHDR_COLORGAMUT_BT709)).maxLength <
      (mkJpegGainMap 200 (mkJpegImg 100 ULTRAHDR_COLORGAMUT_BT709)).length := by
  constructor
  · exact Nat.le_refl _
  · show (100 : Nat) < 200
    omega

/-- C2: for every even width in `[kMinWidth, kMaxWidth]` and even height in
`[kMinHeight, kMaxHeight]`, the gain-map width is the downscaled width
rounded up to a multiple of `kJpegBlock` (it is a multiple of 16, at least
the downscaled width, and less than the downscaled width plus 16), and the
gain-map height is the downscaled height rounded to the nearest even number
(even, equal to the downscaled height when that is even, and to the
downscaled height plus one when it is odd). -/
theorem c2_gainmap_dimensions (w h : Nat)
    (hw0 : w % 2 = 0) (hw1 : kMinWidth ≤ w) (hw2 : w ≤ kMaxWidth)
    (hh0 : h % 2 = 0) (hh1 : kMinHeight ≤ h) (hh2 : h ≤ kMaxHeight) :
    mapWidth w % kJpegBlock = 0 ∧
    w / kScaleFactor ≤ mapWidth w ∧
    mapWidth w < w / kScaleFactor + kJpegBlock ∧
    mapHeight h % 2 = 0 ∧
    (h / kScaleFactor % 2 = 0 → mapHeight h = h / kScaleFactor) ∧
    (h / kScaleFactor % 2 = 1 → mapHeight h = h / kScaleFactor + 1) := by
  have hmw : mapWidth w = (w / 4 + 15) / 16 * 16 := by
    simp [mapWidth, kScaleFactor, kJpegBlock]
  have hmh : mapHeight h = (h / 4 + 1) / 2 * 2 := by
    simp [mapHeight, kScaleFactor, Nat.shiftRight_eq_div_pow, Nat.shiftLeft_eq, pow_one]
  simp only [hmw, hmh, kJpegBlock, kScaleFactor]
  omega

/-- C2 witness: a concrete even 10×12 input inside the bounds. -/
theorem c2_gainmap_dimensions_witness :
    (10 : Nat) % 2 = 0 ∧ kMinWidth ≤ 10 ∧ 10 ≤ kMaxWidth ∧
    (12 : Nat) % 2 = 0 ∧ kMinHeight ≤ 12 ∧ 12 ≤ kMaxHeight ∧
    (mapWidth 10 % kJpegBlock = 0 ∧
     10 / kScaleFactor ≤ mapWidth 10 ∧
     mapWidth 10 < 10 / kScaleFactor + kJpegBlock ∧
     mapHeight 12 % 2 = 0 ∧
     (12 / kScaleFactor % 2 = 0 → mapHeight 12 = 12 / kScaleFactor) ∧
     (12 / kScaleFactor % 2 = 1 → mapHeight 12 = 12 / kScaleFactor + 1)) :=
  ⟨by decide, by decide, by decide, by decide, by decide, by decide,
   c2_gainmap_dimensions 10 12 (by decide) (by decide) (by decide)
     (by decide) (by decide) (by decide)⟩

/-- C6: for every drawn width in `[kMinWidth, kMaxWidth]` and height in
`[kMinHeight, kMaxHeight]`, the even-clipped dimensions the driver assigns
to the raw HDR (p010) and raw SDR (yuv420) descriptors are even and stay
within the supported bounds. -/
theorem c6_dimensions_even_in_bounds (wRaw hRaw : Nat) (cg420 cgP010 : Int)
    (isUVContiguous hasYStride : Bool) (yStride uvStride : Nat)
    (hw1 : kMinWidth ≤ wRaw) (hw2 : wRaw ≤ kMaxWidth)
    (hh1 : kMinHeight ≤ hRaw) (hh2 : hRaw ≤ kMaxHeight) :
    (mkP010Img (makeEven wRaw) (makeEven hRaw) cgP010 isUVContiguous hasYStride
        yStride uvStride).width % 2 = 0 ∧
    kMinWidth ≤ (mkP010Img (makeEven wRaw) (makeEven hRaw) cgP010 isUVContiguous
        hasYStride yStride uvStride).width ∧
    (mkP010Img (makeEven wRaw) (makeEven hRaw) cgP010 isUVContiguous hasYStride
        yStride uvStride).width ≤ kMaxWidth ∧
    (mkP010Img (makeEven wRaw) (makeEven hRaw) cgP010 isUVContiguous hasYStride
        yStride uvStride).height % 2 = 0 ∧
    kMinHeight ≤ (mkP010Img (makeEven wRaw) (makeEven hRaw) cgP010 isUVContiguous
        hasYStride yStride uvStride).height ∧
    (mkP010Img (makeEven wRaw) (makeEven hRaw) cgP010 isUVContiguous hasYStride
        yStride uvStride).height ≤ kMaxHeight ∧
    (mkYuv420Img (makeEven wRaw) (makeEven hRaw) cg420).width =
      (mkP010Img (makeEven wRaw) (makeEven hRaw) cgP010 isUVContiguous hasYStride
        yStride uvStride).width ∧
    (mkYuv420Img (makeEven wRaw) (makeEven hRaw) cg420).height =
      (mkP010Img (makeEven wRaw) (makeEven hRaw) cgP010 isUVContiguous hasYStride
        yStride uvStride).height := by
  simp only [mkP010Img, mkYuv420Img, makeEven_eq, kMinWidth, kMaxWidth,
    kMinHeight, kMaxHeight] at *
  refine ⟨?_, ?_, ?_, ?_, ?_, ?_, trivial, trivial⟩ <;> omega

/-- C6 witness: concrete draws 9 × 4319 inside the bounds. -/
theorem c6_dimensions_even_in_bounds_witness :
    kMinWidth ≤ 9 ∧ (9 : Nat) ≤ kMaxWidth ∧ kMinHeight ≤ 4319 ∧ (4319 : Nat) ≤ kMaxHeight ∧
    ((mkP010Img (makeEven 9) (makeEven 4319) ULTRAHDR_COLORGAMUT_P3 true false
        9 9).width % 2 = 0 ∧
     kMinWidth ≤ (mkP010Img (makeEven 9) (makeEven 4319) ULTRAHDR_COLORGAMUT_P3 true false
        9 9).width ∧
     (mkP010Img (makeEven 9) (makeEven 4319) ULTRAHDR_COLORGAMUT_P3 true false
        9 9).width ≤ kMaxWidth ∧
     (mkP010Img (makeEven 9) (makeEven 4319) ULTRAHDR_COLORGAMUT_P3 true false
        9 9).height % 2 = 0 ∧
     kMinHeight ≤ (mkP010Img (makeEven 9) (makeEven 4319) ULTRAHDR_COLORGAMUT_P3 true false
        9 9).height ∧
     (mkP010Img (makeEven 9) (makeEven 4319) ULTRAHDR_COLORGAMUT_P3 true false
        9 9).height ≤ kMaxHeight ∧
     (mkYuv420Img (makeEven 9) (makeEven 4319) ULTRAHDR_COLORGAMUT_BT2100).width =
       (mkP010Img (makeEven 9) (makeEven 4319) ULTRAHDR_COLORGAMUT_P3 true false
        9 9).width ∧
     (mkYuv420Img (makeEven 9) (makeEven 4319) ULTRAHDR_COLORGAMUT_BT2100).height =
       (mkP010Img (makeEven 9) (makeEven 4319) ULTRAHDR_COLORGAMUT_P3 true false
        9 9).height) :=
  ⟨by decide, by decide, by decide, by decide,
   c6_dimensions_even_in_bounds 9 4319 ULTRAHDR_COLORGAMUT_BT2100 ULTRAHDR_COLORGAMUT_P3
     true false 9 9 (by decide) (by decide) (by decide) (by decide)⟩

/-- C3 counterexample: the linear transfer function is drawable
(`kTfMin ≤ ULTRAHDR_TF_LINEAR ≤ kTfMax`), yet the metadata the driver
constructs for it has `maxContentBoost = 0 < 1 = minContentBoost`,
refuting the claim that every constructed record satisfies
`maxContentBoost ≥ minContentBoost`. -/
theorem c3_counterexample_linear_tf :
    kTfMin ≤ ULTRAHDR_TF_LINEAR ∧ ULTRAHDR_TF_LINEAR ≤ kTfMax ∧
    (mkMetadata ULTRAHDR_TF_LINEAR).maxContentBoost <
      (mkMetadata ULTRAHDR_TF_LINEAR).minContentBoost := by
  refine ⟨by norm_num [kTfMin, ULTRAHDR_TF_UNSPECIFIED, ULTRAHDR_TF_LINEAR],
    by norm_num [kTfMax, ULTRAHDR_TF_MAX, ULTRAHDR_TF_LINEAR], ?_⟩
  norm_num [mkMetadata, ULTRAHDR_TF_LINEAR, ULTRAHDR_TF_HLG, ULTRAHDR_TF_PQ]

/-- C3 (amended): for every transfer function the driver can draw, the
constructed metadata satisfies `maxContentBoost ≥ minContentBoost` exactly
when the transfer function is HLG or PQ; for every other drawable transfer
function the driver sets `maxContentBoost = 0`, below
`minContentBoost = 1`. -/
theorem c3_content_boost_order_amended (tf : Int)
    (h1 : kTfMin ≤ tf) (h2 : tf ≤ kTfMax) :
    ((mkMetadata tf).minContentBoost ≤ (mkMetadata tf).maxContentBoost) ↔
      (tf = ULTRAHDR_TF_HLG ∨ tf = ULTRAHDR_TF_PQ) := by
  by_cases hH : tf = ULTRAHDR_TF_HLG
  · simp only [mkMetadata, hH, if_pos rfl]
    norm_num [ULTRAHDR_TF_HLG, kHlgMaxNits, kSdrWhiteNits]
  · by_cases hP : tf = ULTRAHDR_TF_PQ
    · simp only [mkMetadata, hP]
      norm_num [ULTRAHDR_TF_PQ, ULTRAHDR_TF_HLG, kPqMaxNits, kSdrWhiteNits]
    · simp only [mkMetadata, if_neg hH, if_neg hP]
      norm_num [hH, hP]

/-- C3 witness: the amended equivalence applied at the HLG transfer
function. -/
theorem c3_content_boost_order_amended_witness :
    kTfMin ≤ ULTRAHDR_TF_HLG ∧ ULTRAHDR_TF_HLG ≤ kTfMax ∧
    (((mkMetadata ULTRAHDR_TF_HLG).minContentBoost ≤
        (mkMetadata ULTRAHDR_TF_HLG).maxContentBoost) ↔
      (ULTRAHDR_TF_HLG = ULTRAHDR_TF_HLG ∨ ULTRAHDR_TF_HLG = ULTRAHDR_TF_PQ)) :=
  ⟨by norm_num [kTfMin, ULTRAHDR_TF_UNSPECIFIED, ULTRAHDR_TF_HLG],
   by norm_num [kTfMax, ULTRAHDR_TF_MAX, ULTRAHDR_TF_HLG],
   c3_content_boost_order_amended ULTRAHDR_TF_HLG
     (by norm_num [kTfMin, ULTRAHDR_TF_UNSPECIFIED, ULTRAHDR_TF_HLG])
     (by norm_num [kTfMax, ULTRAHDR_TF_MAX, ULTRAHDR_TF_HLG])⟩

/-- C5 counterexample: the linear transfer function is drawable, yet the
metadata the driver constructs for it has `maxContentBoost = 0`, which is
neither of the peak-nits-over-SDR-white ratios the claim names
(`kHlgMaxNits / kSdrWhiteNits = 10` and `kPqMaxNits / kSdrWhiteNits = 100`),
refuting the claim for every drawable transfer function. -/
theorem c5_counterexample_linear_tf :
    kTfMin ≤ ULTRAHDR_TF_LINEAR ∧ ULTRAHDR_TF_LINEAR ≤ kTfMax ∧
    (mkMetadata ULTRAHDR_TF_LINEAR).maxContentBoost ≠ kHlgMaxNits / kSdrWhiteNits ∧
    (mkMetadata ULTRAHDR_TF_LINEAR).maxContentBoost ≠ kPqMaxNits / kSdrWhiteNits := by
  refine ⟨by norm_num [kTfMin, ULTRAHDR_TF_UNSPECIFIED, ULTRAHDR_TF_LINEAR],
    by norm_num [kTfMax, ULTRAHDR_TF_MAX, ULTRAHDR_TF_LINEAR], ?_, ?_⟩ <;>
  norm_num [mkMetadata, ULTRAHDR_TF_LINEAR, ULTRAHDR_TF_HLG, ULTRAHDR_TF_PQ,
    kHlgMaxNits, kPqMaxNits, kSdrWhiteNits]

/-- C5 (amended): for every transfer function the driver can draw, the
pure-mux metadata's `maxContentBoost` is `kHlgMaxNits / kSdrWhiteNits` when
the transfer function is HLG, `kPqMaxNits / kSdrWhiteNits` when it is PQ,
and 0 for every other drawable transfer function. -/
theorem c5_max_content_boost_amended (tf : Int)
    (h1 : kTfMin ≤ tf) (h2 : tf ≤ kTfMax) :
    (tf = ULTRAHDR_TF_HLG →
      (mkMetadata tf).maxContentBoost = kHlgMaxNits / kSdrWhiteNits) ∧
    (tf = ULTRAHDR_TF_PQ →
      (mkMetadata tf).maxContentBoost = kPqMaxNits / kSdrWhiteNits) ∧
    (tf ≠ ULTRAHDR_TF_HLG → tf ≠ ULTRAHDR_TF_PQ →
      (mkMetadata tf).maxContentBoost = 0) := by
  refine ⟨fun hH => ?_, fun hP => ?_, fun hH hP => ?_⟩
  · simp [mkMetadata, hH]
  · subst hP
    norm_num [mkMetadata, ULTRAHDR_TF_PQ, ULTRAHDR_TF_HLG]
  · simp [mkMetadata, hH, hP]

/-- C5 witness: the amended statement applied at the PQ transfer
function. -/
theorem c5_max_content_boost_amended_witness :
    kTfMin ≤ ULTRAHDR_TF_PQ ∧ ULTRAHDR_TF_PQ ≤ kTfMax ∧
    ((ULTRAHDR_TF_PQ = ULTRAHDR_TF_HLG →
       (mkMetadata ULTRAHDR_TF_PQ).maxContentBoost = kHlgMaxNits / kSdrWhiteNits) ∧
     (ULTRAHDR_TF_PQ = ULTRAHDR_TF_PQ →
       (mkMetadata ULTRAHDR_TF_PQ).maxContentBoost = kPqMaxNits / kSdrWhiteNits) ∧
     (ULTRAHDR_TF_PQ ≠ ULTRAHDR_TF_HLG → ULTRAHDR_TF_PQ ≠ ULTRAHDR_TF_PQ →
       (mkMetadata ULTRAHDR_TF_PQ).maxContentBoost = 0)) :=
  ⟨by norm_num [kTfMin, ULTRAHDR_TF_UNSPECIFIED, ULTRAHDR_TF_PQ],
   by norm_num [kTfMax, ULTRAHDR_TF_MAX, ULTRAHDR_TF_PQ],
   c5_max_content_boost_amended ULTRAHDR_TF_PQ
     (by norm_num [kTfMin, ULTRAHDR_TF_UNSPECIFIED, ULTRAHDR_TF_PQ])
     (by norm_num [kTfMax, ULTRAHDR_TF_MAX, ULTRAHDR_TF_PQ])⟩

/-- C4: evaluation of `fillP010Buffer` at the failing input
`width = 16, height = 2, stride = 16` (which satisfies `width ≥ 1`,
`height ≥ 1`, `stride ≥ width`), starting from an all-unwritten buffer.
Element 0 is written, but element 8 of row 0 (the memcpy count
`min(16, width - i)` is in bytes, covering only 8 of the 16-bit elements of
each block) and element 16 = `1 * stride + 0` of row 1 (every row's memcpy
targets `data + i`; the row pointer `tmp` is advanced but never used)
receive no write, contradicting the claim that every element
`j * stride + i` with `j < height`, `i < width` is written. -/
theorem c4_fillP010_leaves_elements_unwritten :
    elementWritten (fillP010Buffer 16 2 16 (fun _ => false)) 0 = true ∧
    elementWritten (fillP010Buffer 16 2 16 (fun _ => false)) 8 = false ∧
    elementWritten (fillP010Buffer 16 2 16 (fun _ => false)) 16 = false := by
  decide

/-- Helper for C10: every copy recorded by the `fill420Buffer` loop has
byte count `min 16 (size - offset)` and starts below `size`. -/
theorem fill420Aux_mem (size : Nat) :
    ∀ fuel i p, p ∈ fill420Aux size fuel i →
      p.2 = min 16 (size - p.1) ∧ p.1 < size := by
  intro fuel
  induction fuel with
  | zero => intro i p hp; simp [fill420Aux] at hp
  | succ n ih =>
    intro i p hp
    simp only [fill420Aux] at hp
    by_cases h : i < size
    · rw [if_pos h] at hp
      rcases List.mem_cons.mp hp with h1 | h2
      · subst h1; exact ⟨rfl, h⟩
      · exact ih (i + 16) p h2
    · rw [if_neg h] at hp
      simp at hp

/-- C10: for every `size ≥ 1`, each copy performed by `fill420Buffer`
starting at offset `i` writes exactly `min 16 (size - i)` bytes, and every
written byte lies inside `[0, size)` (the copy's end never passes
`size`). -/
theorem c10_fill420_writes_in_bounds (size : Nat) (h : 1 ≤ size) :
    ∀ p ∈ fill420Writes size,
      p.2 = min 16 (size - p.1) ∧ p.1 < size ∧ p.1 + p.2 ≤ size := by
  intro p hp
  obtain ⟨h1, h2⟩ := fill420Aux_mem size size 0 p hp
  exact ⟨h1, h2, by omega⟩

/-- C10 witness: the bound applied at `size = 20`. -/
theorem c10_fill420_writes_in_bounds_witness :
    (1 : Nat) ≤ 20 ∧
    ∀ p ∈ fill420Writes 20,
      p.2 = min 16 (20 - p.1) ∧ p.1 < 20 ∧ p.1 + p.2 ≤ 20 :=
  ⟨by decide, c10_fill420_writes_in_bounds 20 (by decide)⟩

/-- C7: for every `muxSwitch` in `[0, 4]` and every outcome of the two
external compressions, the iteration performs at most one `encodeJPEGR`
call; any call made is the shape `muxSwitch` selects (`apiOf`), shapes 0
and 1 always call it, shapes 2 and 3 call it exactly when the SDR
compression succeeds, and shape 4 exactly when both compressions
succeed. -/
theorem c7_single_encode_call (m : Nat) (ok1 ok2 : Bool) (h : m ≤ 4) :
    (encodeCallsOf (iterationTrace m ok1 ok2)).length ≤ 1 ∧
    (encodeCallsOf (iterationTrace m ok1 ok2) = [] ∨
      encodeCallsOf (iterationTrace m ok1 ok2) = [apiOf m]) ∧
    (m = 0 ∨ m = 1 → encodeCallsOf (iterationTrace m ok1 ok2) = [apiOf m]) ∧
    (ok1 = true → m = 2 ∨ m = 3 →
      encodeCallsOf (iterationTrace m ok1 ok2) = [apiOf m]) ∧
    (ok1 = true → ok2 = true → m = 4 →
      encodeCallsOf (iterationTrace m ok1 ok2) = [apiOf m]) := by
  have hm : m = 0 ∨ m = 1 ∨ m = 2 ∨ m = 3 ∨ m = 4 := by omega
  rcases hm with rfl | rfl | rfl | rfl | rfl <;> cases ok1 <;> cases ok2 <;> decide

/-- C7 witness: the dispatch property at `muxSwitch = 4` with both
compressions succeeding. -/
theorem c7_single_encode_call_witness :
    (4 : Nat) ≤ 4 ∧
    ((encodeCallsOf (iterationTrace 4 true true)).length ≤ 1 ∧
     (encodeCallsOf (iterationTrace 4 true true) = [] ∨
       encodeCallsOf (iterationTrace 4 true true) = [apiOf 4]) ∧
     ((4 : Nat) = 0 ∨ (4 : Nat) = 1 →
       encodeCallsOf (iterationTrace 4 true true) = [apiOf 4]) ∧
     (true = true → (4 : Nat) = 2 ∨ (4 : Nat) = 3 →
       encodeCallsOf (iterationTrace 4 true true) = [apiOf 4]) ∧
     (true = true → true = true → (4 : Nat) = 4 →
       encodeCallsOf (iterationTrace 4 true true) = [apiOf 4])) :=
  ⟨by decide, c7_single_encode_call 4 true true (by decide)⟩

/-- C8: for every consumed probability `p` in `[0, 1]`, the maximum display
boost the driver passes to `decodeJPEGR` is at least 1 (and at most
`FLT_MAX`), satisfying the decode boost precondition. -/
theorem c8_decode_boost_ge_one (p : ℚ) (h0 : 0 ≤ p) (h1 : p ≤ 1) :
    1 ≤ decodeBoost p ∧ decodeBoost p ≤ kFltMax := by
  unfold decodeBoost consumeFloatingPointInRange
  constructor
  · nlinarith [mul_nonneg (show (0 : ℚ) ≤ kFltMax - 1 by norm_num [kFltMax]) h0]
  · nlinarith [mul_le_mul_of_nonneg_left h1
      (show (0 : ℚ) ≤ kFltMax - 1 by norm_num [kFltMax])]

/-- C8 witness: the boost bound at the probability draw `p = 0`. -/
theorem c8_decode_boost_ge_one_witness :
    (0 : ℚ) ≤ 0 ∧ (0 : ℚ) ≤ 1 ∧
    (1 ≤ decodeBoost 0 ∧ decodeBoost 0 ≤ kFltMax) :=
  ⟨le_refl 0, by norm_num, c8_decode_boost_ge_one 0 (le_refl 0) (by norm_num)⟩

/-- C9: for every `muxSwitch` in `[0, 4]`, every outcome of the external
compressions and every prior value of the destination buffer's `length`
field, each `encodeJPEGR` invocation of the iteration sees the destination
length equal to 0 — the driver resets it immediately before every encode
entry point. -/
theorem c9_dest_length_reset_before_encode (m : Nat) (ok1 ok2 : Bool)
    (initLen : Nat) (h : m ≤ 4) :
    ∀ p ∈ encodeStates (iterationTrace m ok1 ok2) initLen, p.2 = 0 := by
  have hm : m = 0 ∨ m = 1 ∨ m = 2 ∨ m = 3 ∨ m = 4 := by omega
  rcases hm with rfl | rfl | rfl | rfl | rfl <;> cases ok1 <;> cases ok2 <;>
    simp [iterationTrace, encodeStates]

/-- C9 witness: the reset invariant at `muxSwitch = 3` with the SDR
compression succeeding and a stale initial length of 7. -/
theorem c9_dest_length_reset_before_encode_witness :
    (3 : Nat) ≤ 4 ∧
    ∀ p ∈ encodeStates (iterationTrace 3 true false) 7, p.2 = 0 :=
  ⟨by decide, c9_dest_length_reset_before_encode 3 true false 7 (by decide)⟩
